import Mathlib

/-!
Shallow embedding of the go-digicert-tlm client library (package `digicert`).

The embedding models, from the Go source:
  * the error types and helpers of `errors.go` (`APIError`, `HTTPError`,
    `IsNotFound`, `IsUnauthorized`, `IsForbidden`);
  * the shared request/response plumbing of `client.go`
    (`NewRequest`, `Do`, `checkError`);
  * the query-string assembly of the five list/search service methods
    (`CertificatesService.Search`, `BusinessUnitsService.List`,
    `CertificateOwnersService.List`, `EnrollmentsService.ListDetails`,
    `ProfilesService.List`);
  * the request construction of `CertificatesService.Revoke`, `Unrevoke`
    and `Issue`.

HTTP bodies are modelled as raw strings paired with the result of parsing
them as JSON; `encoding/json.Unmarshal` into the `APIError` struct is
modelled field by field following Go's decoding rules (unknown keys are
ignored, later duplicate keys win, JSON `null` leaves a string field
untouched and resets a slice field, a type mismatch is an error).
-/

namespace Digicert

/-- A JSON value, as produced by `encoding/json` when the body bytes parse. -/
inductive JsonVal where
  | null : JsonVal
  | bool (b : Bool) : JsonVal
  | num (n : Int) : JsonVal
  | str (s : String) : JsonVal
  | arr (xs : List JsonVal) : JsonVal
  | obj (fields : List (String × JsonVal)) : JsonVal

/-- `APIError` from `errors.go` (the `StatusCode` field carries the JSON tag
`-` and is never populated from the body; `Code`, `Message`, `Details` and
`RequestID` come from the JSON keys `code`, `message`, `details`,
`request_id`). -/
structure APIError where
  StatusCode : Int := 0
  Code : String := ""
  Message : String := ""
  Details : List String := []
  RequestID : String := ""
deriving Repr, DecidableEq

/-- `HTTPError` from `errors.go`. -/
structure HTTPError where
  StatusCode : Int
  Message : String
deriving Repr, DecidableEq

/-- Decoding one JSON value into a Go `string` field holding `old`:
a JSON string replaces it, JSON `null` leaves it unchanged, anything
else is an unmarshal error. -/
def decodeStringField (old : String) : JsonVal → Option String
  | .str s => some s
  | .null => some old
  | _ => none

/-- Decoding a JSON array element list into a Go `[]string`: every element
must be a JSON string (or `null`, which leaves the zero value `""`). -/
def decodeStringList : List JsonVal → Option (List String)
  | [] => some []
  | .str s :: rest => (decodeStringList rest).map (fun l => s :: l)
  | .null :: rest => (decodeStringList rest).map (fun l => ("") :: l)
  | _ => none

/-- Decoding one JSON value into a Go `[]string` field holding `old`:
an array decodes element-wise, `null` resets the slice to `nil`,
anything else is an unmarshal error. -/
def decodeDetailsField (old : List String) : JsonVal → Option (List String)
  | .arr xs => decodeStringList xs
  | .null => some []
  | .str _ => none
  | .bool _ => none
  | .num _ => none
  | .obj _ => (fun _ => none) old

/-- One step of `json.Unmarshal` into `APIError`: apply a single object
entry to the partially decoded struct. Keys other than `code`, `message`,
`details` and `request_id` are ignored (this includes `StatusCode`,
whose tag is `-`). -/
def setAPIErrorField (e : APIError) : String × JsonVal → Option APIError
  | (k, v) =>
    if k = ("code") then (decodeStringField e.Code v).map (fun s => { e with Code := s })
    else if k = ("message") then (decodeStringField e.Message v).map (fun s => { e with Message := s })
    else if k = ("details") then (decodeDetailsField e.Details v).map (fun l => { e with Details := l })
    else if k = ("request_id") then (decodeStringField e.RequestID v).map (fun s => { e with RequestID := s })
    else some e

/-- `json.Unmarshal(data, &apiError)` on a parsed JSON value: a JSON object
decodes field by field (later duplicate keys win), top-level `null` leaves
the zero value, and any other top-level value is an unmarshal error. -/
def unmarshalAPIError : JsonVal → Option APIError
  | .obj fields => fields.foldlM setAPIErrorField {}
  | .null => some {}
  | _ => none

/-- A received HTTP response body: the raw bytes (as a string) together
with the result of parsing them as JSON (`none` when the bytes are not
valid JSON; an empty body never parses). -/
structure HttpBody where
  raw : String
  json : Option JsonVal

/-- The error value produced by `Client.checkError`: either a decoded
`*APIError` or a fallback `*HTTPError`. -/
inductive GoErr where
  | api (e : APIError) : GoErr
  | http (e : HTTPError) : GoErr
deriving Repr, DecidableEq

/-- `Client.checkError` from `client.go`: try to unmarshal the body into
`APIError`; on failure return `HTTPError` with the raw body as message,
on success return the `APIError` with the response status code attached. -/
def checkError (statusCode : Int) (data : HttpBody) : GoErr :=
  match data.json.bind unmarshalAPIError with
  | none => .http { StatusCode := statusCode, Message := data.raw }
  | some apiError => .api { apiError with StatusCode := statusCode }

/-- The outcome of `Client.Do` after the response was received and the body
read: `ok none` means the decode target was left untouched (nil target or
empty body), `ok (some a)` means the body was decoded into the target,
`err` is the value of `checkError`, and `decodeErr` is the wrapped
`failed to decode response` error. -/
inductive DoResult (α : Type) where
  | ok (decoded : Option α) : DoResult α
  | err (e : GoErr) : DoResult α
  | decodeErr : DoResult α
deriving Repr, DecidableEq

/-- `Client.Do` from `client.go`, after the transport returned a response
with status `statusCode` and body `data`. `v` is the decode target:
`none` models a nil `interface{}`, `some dec` models a non-nil target
whose `json.Unmarshal` is `dec` composed with the body's parse result. -/
def doRequest {α : Type} (statusCode : Int) (data : HttpBody)
    (v : Option (JsonVal → Option α)) : DoResult α :=
  if statusCode < 200 ∨ 300 ≤ statusCode then
    .err (checkError statusCode data)
  else
    match v with
    | some dec =>
      if 0 < data.raw.length then
        match data.json.bind dec with
        | some a => .ok (some a)
        | none => .decodeErr
      else .ok none
    | none => .ok none

/-- `APIVersion` from `client.go`. -/
def APIVersion : String := "v1"

/-- `UserAgent` default from `client.go`. -/
def defaultUserAgent : String := "go-digicert/1.0"

/-- The components of the client's base URL that the code touches:
host and path (`NewRequest` mutates only the path). -/
structure URLModel where
  host : String
  path : String
deriving Repr, DecidableEq

/-- The client fields read or written by `NewRequest`: the base URL, the
`UserAgent` string and the stored API key. -/
structure ClientState where
  baseURL : URLModel
  userAgent : String
  apiKey : String
deriving Repr, DecidableEq

/-- `strings.TrimPrefix(s, "/")`: drop one leading slash if present. -/
def trimPrefixSlash (s : String) : String :=
  match s.data with
  | '/' :: rest => String.mk rest
  | _ => s

/-- Whether a string starts with a slash (the test `strings.TrimPrefix`
performs to decide whether to strip). -/
def startsWithSlash (s : String) : Bool :=
  match s.data with
  | '/' :: _ => true
  | _ => false

/-- `strings.HasSuffix(p, "/")`: the last character is a slash. -/
def hasSuffixSlash (p : String) : Bool :=
  match p.data.getLast? with
  | some '/' => true
  | _ => false

/-- The trailing-slash fixup performed on `c.BaseURL.Path` at the top of
`NewRequest` (`strings.HasSuffix` / `+= "/"`). -/
def ensureTrailingSlash (p : String) : String :=
  if hasSuffixSlash p then p else p ++ ("/")

/-- The relative URL string `fmt.Sprintf("mpki/api/%s/%s", APIVersion,
strings.TrimPrefix(urlStr, "/"))` built by `NewRequest`. -/
def relPath (urlStr : String) : String :=
  ("mpki/api/") ++ APIVersion ++ ("/") ++ trimPrefixSlash urlStr

/-- `ishex` from `net/url`: ASCII hexadecimal digit. -/
def isHexChar (c : Char) : Bool :=
  (('0' ≤ c) && (c ≤ '9')) || (('a' ≤ c) && (c ≤ 'f')) || (('A' ≤ c) && (c ≤ 'F'))

/-- Whether every `%` in the string is followed by two hexadecimal digits.
`net/url.Parse` rejects a URL containing an invalid percent escape, which
is the request-construction failure mode modelled here (other stdlib
failure modes, such as control characters, are not modelled). -/
def validEscapes : List Char → Bool
  | [] => true
  | '%' :: c₁ :: c₂ :: rest => isHexChar c₁ && isHexChar c₂ && validEscapes rest
  | '%' :: _ => false
  | _ :: rest => validEscapes rest

/-- `http.Header.Set`: replace any existing value for the key, then record
the new one. -/
def setHeader (hs : List (String × String)) (k v : String) : List (String × String) :=
  hs.filter (fun p => p.1 ≠ k) ++ [(k, v)]

/-- Look up a header value. -/
def getHeader (hs : List (String × String)) (k : String) : Option String :=
  (hs.find? (fun p => p.1 = k)).map (fun p => p.2)

/-- An outgoing HTTP request as `NewRequest` determines it: method, host,
resolved path (base path merged with the relative path; dot-segment
normalisation is not modelled since no caller passes dot segments),
query parameters, headers, and the JSON body (`none` for a nil body). -/
structure RequestModel where
  method : String
  host : String
  path : String
  query : List (String × String) := []
  headers : List (String × String)
  body : Option JsonVal

/-- The headers attached by `NewRequest`: `Content-Type` only for a
non-nil body, then `Accept`, `User-Agent` and `X-API-Key`. -/
def requestHeaders (c : ClientState) (body : Option JsonVal) : List (String × String) :=
  let h₀ : List (String × String) := []
  let h₁ := match body with
    | some _ => setHeader h₀ ("Content-Type") ("application/json")
    | none => h₀
  let h₂ := setHeader h₁ ("Accept") ("application/json")
  let h₃ := setHeader h₂ ("User-Agent") c.userAgent
  setHeader h₃ ("X-API-Key") c.apiKey

/-- `Client.NewRequest` from `client.go`. It first appends a trailing
slash to the base URL path if missing (a mutation of the client's own
`BaseURL`), then resolves `mpki/api/v1/<urlStr-minus-one-leading-slash>`
against the base URL, encodes the body, and sets the headers. The first
component is the client state after the call; the second is the built
request, or `none` when URL parsing fails. -/
def newRequest (c : ClientState) (method urlStr : String) (body : Option JsonVal) :
    ClientState × Option RequestModel :=
  let fixedPath := ensureTrailingSlash c.baseURL.path
  let c' : ClientState := { c with baseURL := { c.baseURL with path := fixedPath } }
  let rel := relPath urlStr
  if validEscapes rel.data then
    (c', some { method := method
                host := c.baseURL.host
                path := fixedPath ++ rel
                headers := requestHeaders c body
                body := body })
  else (c', none)

/-- A transport-level HTTP response: status code and body. -/
structure HttpResp where
  statusCode : Int
  body : HttpBody

/-- `CertificatesService.Issue`: build a POST to `certificate` with the
request as JSON body, then call `Do` once on the transport's response.
The first component lists every request handed to the transport; the
second is `none` when request construction failed (the method returns
early without contacting the transport). -/
def issueTrace {α : Type} (c : ClientState) (transport : RequestModel → HttpResp)
    (dec : JsonVal → Option α) (req : JsonVal) :
    List RequestModel × Option (DoResult α) :=
  match (newRequest c ("POST") ("certificate") (some req)).2 with
  | none => ([], none)
  | some httpReq =>
    let resp := transport httpReq
    ([httpReq], some (doRequest resp.statusCode resp.body (some dec)))

/-- `CertificatesService.Revoke` request construction: a PUT to
`certificate/<serialNumber>/revoke` with the revoke request as body. -/
def revokeRequest (c : ClientState) (serialNumber : String) (req : JsonVal) :
    ClientState × Option RequestModel :=
  newRequest c ("PUT") (("certificate/") ++ serialNumber ++ ("/revoke")) (some req)

/-- `CertificatesService.Unrevoke` request construction: a DELETE to
`certificate/<serialNumber>/revoke` with a nil body. -/
def unrevokeRequest (c : ClientState) (serialNumber : String) :
    ClientState × Option RequestModel :=
  newRequest c ("DELETE") (("certificate/") ++ serialNumber ++ ("/revoke")) none

/-- `CertificatesService.Revoke` as a transport trace, mirroring
`issueTrace`: at most one request reaches the transport. -/
def revokeTrace (c : ClientState) (transport : RequestModel → HttpResp)
    (serialNumber : String) (req : JsonVal) :
    List RequestModel × Option (DoResult Unit) :=
  match (revokeRequest c serialNumber req).2 with
  | none => ([], none)
  | some httpReq =>
    let resp := transport httpReq
    ([httpReq], some (doRequest resp.statusCode resp.body none))

/-- `PaginationParams` as the list methods use it. `client.go` declares the
fields `Page`/`PageSize`, which `EnrollmentsService.ListDetails`,
`CertificateOwnersService.List` and `ProfilesService.List` read, while
`CertificatesService.Search` and `BusinessUnitsService.List` (and the
test suite) read `Offset`/`Limit` through the same embedded struct; the
model carries all four so each method's query assembly can be embedded
as written. -/
structure PaginationParams where
  Page : Int := 0
  PageSize : Int := 0
  Offset : Int := 0
  Limit : Int := 0
deriving Repr, DecidableEq

/-- `CertificateSearchOptions` from the certificates service file. -/
structure CertificateSearchOptions extends PaginationParams where
  CommonName : String := ""
  SerialNumber : String := ""
  Status : String := ""
  ProfileID : String := ""
  Tags : List String := []
  SortBy : String := ""
  SortOrder : String := ""
deriving Repr, DecidableEq

/-- `BusinessUnitListOptions` from `business_units.go` (`IsActive` is a
`*bool`, hence an option). -/
structure BusinessUnitListOptions extends PaginationParams where
  Name : String := ""
  ParentID : String := ""
  IsActive : Option Bool := none
  SortBy : String := ""
  SortOrder : String := ""
deriving Repr, DecidableEq

/-- `CertificateOwnerListOptions` from `certificate_owners.go`. -/
structure CertificateOwnerListOptions extends PaginationParams where
  Email : String := ""
  FirstName : String := ""
  LastName : String := ""
  IsActive : Option Bool := none
  SortBy : String := ""
  SortOrder : String := ""
deriving Repr, DecidableEq

/-- `EnrollmentDetailsOptions` from `enrollments.go`. -/
structure EnrollmentDetailsOptions extends PaginationParams where
  Status : String := ""
  ProfileID : String := ""
  SortBy : String := ""
  SortOrder : String := ""
deriving Repr, DecidableEq

/-- `ProfileListOptions` from `profiles.go`. -/
structure ProfileListOptions extends PaginationParams where
  Name : String := ""
  «Type» : String := ""
  Status : String := ""
  EnrollmentMethod : String := ""
  SortBy : String := ""
  SortOrder : String := ""
deriving Repr, DecidableEq

/-- `fmt.Sprintf("%t", b)`. -/
def fmtBool (b : Bool) : String :=
  if b then ("true") else ("false")

/-- The query parameters `CertificatesService.Search` adds (in `q.Add`
order): the four string filters and the tags when non-empty, and `offset`
and `limit` independently when positive. The struct's `SortBy` and
`SortOrder` fields are never read. -/
def certificateSearchQuery (opts : CertificateSearchOptions) : List (String × String) :=
  (if opts.CommonName ≠ ("") then [(("common_name"), opts.CommonName)] else []) ++
  (if opts.SerialNumber ≠ ("") then [(("serial_number"), opts.SerialNumber)] else []) ++
  (if opts.Status ≠ ("") then [(("status"), opts.Status)] else []) ++
  (if opts.ProfileID ≠ ("") then [(("profile_id"), opts.ProfileID)] else []) ++
  opts.Tags.map (fun tag => (("tags"), tag)) ++
  (if 0 < opts.Offset then [(("offset"), toString opts.Offset)] else []) ++
  (if 0 < opts.Limit then [(("limit"), toString opts.Limit)] else [])

/-- The query parameters `BusinessUnitsService.List` adds: `offset` and
`limit` are added together, only when both are positive. -/
def businessUnitListQuery (opts : BusinessUnitListOptions) : List (String × String) :=
  (if opts.Name ≠ ("") then [(("name"), opts.Name)] else []) ++
  (if opts.ParentID ≠ ("") then [(("parent_id"), opts.ParentID)] else []) ++
  (match opts.IsActive with
   | some b => [(("is_active"), fmtBool b)]
   | none => []) ++
  (if 0 < opts.Offset ∧ 0 < opts.Limit then
     [(("offset"), toString opts.Offset), (("limit"), toString opts.Limit)]
   else []) ++
  (if opts.SortBy ≠ ("") then [(("sort_by"), opts.SortBy)] else []) ++
  (if opts.SortOrder ≠ ("") then [(("sort_order"), opts.SortOrder)] else [])

/-- The query parameters `CertificateOwnersService.List` adds. -/
def certificateOwnerListQuery (opts : CertificateOwnerListOptions) : List (String × String) :=
  (if opts.Email ≠ ("") then [(("email"), opts.Email)] else []) ++
  (if opts.FirstName ≠ ("") then [(("first_name"), opts.FirstName)] else []) ++
  (if opts.LastName ≠ ("") then [(("last_name"), opts.LastName)] else []) ++
  (match opts.IsActive with
   | some b => [(("is_active"), fmtBool b)]
   | none => []) ++
  (if 0 < opts.Page then [(("page"), toString opts.Page)] else []) ++
  (if 0 < opts.PageSize then [(("page_size"), toString opts.PageSize)] else []) ++
  (if opts.SortBy ≠ ("") then [(("sort_by"), opts.SortBy)] else []) ++
  (if opts.SortOrder ≠ ("") then [(("sort_order"), opts.SortOrder)] else [])

/-- The query parameters `EnrollmentsService.ListDetails` adds. -/
def enrollmentDetailsQuery (opts : EnrollmentDetailsOptions) : List (String × String) :=
  (if opts.Status ≠ ("") then [(("status"), opts.Status)] else []) ++
  (if opts.ProfileID ≠ ("") then [(("profile_id"), opts.ProfileID)] else []) ++
  (if 0 < opts.Page then [(("page"), toString opts.Page)] else []) ++
  (if 0 < opts.PageSize then [(("page_size"), toString opts.PageSize)] else []) ++
  (if opts.SortBy ≠ ("") then [(("sort_by"), opts.SortBy)] else []) ++
  (if opts.SortOrder ≠ ("") then [(("sort_order"), opts.SortOrder)] else [])

/-- The query parameters `ProfilesService.List` adds. -/
def profileListQuery (opts : ProfileListOptions) : List (String × String) :=
  (if opts.Name ≠ ("") then [(("name"), opts.Name)] else []) ++
  (if opts.«Type» ≠ ("") then [(("type"), opts.«Type»)] else []) ++
  (if opts.Status ≠ ("") then [(("status"), opts.Status)] else []) ++
  (if opts.EnrollmentMethod ≠ ("") then [(("enrollment_method"), opts.EnrollmentMethod)] else []) ++
  (if 0 < opts.Page then [(("page"), toString opts.Page)] else []) ++
  (if 0 < opts.PageSize then [(("page_size"), toString opts.PageSize)] else []) ++
  (if opts.SortBy ≠ ("") then [(("sort_by"), opts.SortBy)] else []) ++
  (if opts.SortOrder ≠ ("") then [(("sort_order"), opts.SortOrder)] else [])

/-- Whether a query parameter with the given key is present. -/
def hasKey (q : List (String × String)) (k : String) : Bool :=
  q.any (fun p => p.1 == k)

/-- A Go `error` value as the helpers in `errors.go` see it: a `*APIError`,
a `*HTTPError`, or an error of any other dynamic type (for which both
type assertions fail). -/
inductive GoErrorValue where
  | apiError (e : APIError) : GoErrorValue
  | httpError (e : HTTPError) : GoErrorValue
  | otherError (msg : String) : GoErrorValue
deriving Repr, DecidableEq

/-- `IsNotFound` from `errors.go`. -/
def IsNotFound : GoErrorValue → Bool
  | .apiError e => e.StatusCode == 404
  | .httpError e => e.StatusCode == 404
  | .otherError _ => false

/-- `IsUnauthorized` from `errors.go`. -/
def IsUnauthorized : GoErrorValue → Bool
  | .apiError e => e.StatusCode == 401
  | .httpError e => e.StatusCode == 401
  | .otherError _ => false

/-- `IsForbidden` from `errors.go`. -/
def IsForbidden : GoErrorValue → Bool
  | .apiError e => e.StatusCode == 403
  | .httpError e => e.StatusCode == 403
  | .otherError _ => false

/-- The status code carried by an error value, when it is one of the two
library error types. -/
def errStatus : GoErrorValue → Option Int
  | .apiError e => some e.StatusCode
  | .httpError e => some e.StatusCode
  | .otherError _ => none

/-! Theorems. -/

/-- C1, counterexample. The claim says an error is produced only for 4xx/5xx
statuses, with a decoded `*APIError` whenever the body parses as JSON. On the
code: (1) a 304 response (neither 4xx nor 5xx) already produces an `*HTTPError`;
(2) a 200 response whose non-empty body fails to decode into a non-nil target
produces a (decode) error; (3) a 400 response whose body is the JSON array
`[1]` — parseable JSON — produces an `*HTTPError`, not a decoded `*APIError`,
because the body does not unmarshal into the `APIError` struct. -/
theorem doRequest_error_only_4xx5xx_counterexample :
    (doRequest 304 { raw := (""), json := none } (none : Option (JsonVal → Option Unit))
      = .err (.http { StatusCode := 304, Message := ("") })) ∧
    (doRequest 200 { raw := ("x"), json := none } (some (fun _ => some ()))
      = DoResult.decodeErr) ∧
    (doRequest 400 { raw := ("[1]"), json := some (.arr [.num 1]) }
        (none : Option (JsonVal → Option Unit))
      = .err (.http { StatusCode := 400, Message := ("[1]") })) := by
  refine ⟨by decide, by decide, by decide⟩

/-- C1, amended. `Client.Do` returns the `checkError` value exactly for
statuses outside 200–299; `checkError` yields a decoded `*APIError` carrying
the status code precisely when the body unmarshals into the `APIError` struct,
and otherwise an `*HTTPError` carrying the status code and the raw body as its
message. For a 2xx status the two error shapes never occur, and the only error
is the decode failure, which happens exactly when a non-empty body fails to
unmarshal into a non-nil target. -/
theorem doRequest_error_classification {α : Type} (s : Int) (b : HttpBody)
    (v : Option (JsonVal → Option α)) :
    ((s < 200 ∨ 300 ≤ s) → doRequest s b v = .err (checkError s b)) ∧
    (∀ e, b.json.bind unmarshalAPIError = some e →
      checkError s b = .api { e with StatusCode := s }) ∧
    (b.json.bind unmarshalAPIError = none →
      checkError s b = .http { StatusCode := s, Message := b.raw }) ∧
    (200 ≤ s → s < 300 → ∀ g, doRequest s b v ≠ .err g) ∧
    (200 ≤ s → s < 300 →
      (doRequest s b v = .decodeErr ↔
        ∃ dec, v = some dec ∧ 0 < b.raw.length ∧ b.json.bind dec = none)) := by
  refine ⟨?_, ?_, ?_, ?_, ?_⟩
  · intro h
    unfold doRequest
    rw [if_pos h]
  · intro e he
    unfold checkError
    rw [he]
  · intro he
    unfold checkError
    rw [he]
  · intro h₁ h₂ g
    unfold doRequest
    rw [if_neg (by omega)]
    cases v with
    | none => simp
    | some dec =>
      dsimp only
      by_cases hl : 0 < b.raw.length
      · rw [if_pos hl]
        cases hb : b.json.bind dec <;> simp
      · rw [if_neg hl]
        simp
  · intro h₁ h₂
    unfold doRequest
    rw [if_neg (by omega)]
    cases v with
    | none => simp
    | some dec =>
      dsimp only
      by_cases hl : 0 < b.raw.length
      · rw [if_pos hl]
        cases hb : b.json.bind dec with
        | some a =>
          constructor
          · intro hfalse
            simp at hfalse
          · rintro ⟨d, hd, -, hn⟩
            injection hd with hd
            subst hd
            rw [hb] at hn
            simp at hn
        | none =>
          constructor
          · intro _
            exact ⟨dec, rfl, hl, hb⟩
          · intro _
            simp
      · rw [if_neg hl]
        constructor
        · intro hfalse
          simp at hfalse
        · rintro ⟨d, hd, hl₂, hn⟩
          exact absurd hl₂ hl

/-- C1, witness for the amended theorem at a concrete 404 response with a
decoded body. -/
theorem doRequest_error_classification_witness :
    (((404 : Int) < 200 ∨ (300 : Int) ≤ 404) ∧
      doRequest 404
        { raw := ("x"), json := some (.obj [(("code"), .str ("NOT_FOUND"))]) }
        (none : Option (JsonVal → Option Unit))
      = .err (.api { StatusCode := 404, Code := ("NOT_FOUND") })) := by
  refine ⟨Or.inr (by decide), ?_⟩
  rw [(doRequest_error_classification 404
    { raw := ("x"), json := some (.obj [(("code"), .str ("NOT_FOUND"))]) }
    (none : Option (JsonVal → Option Unit))).1 (Or.inr (by decide))]
  decide

/-- C3. For a 2xx response with a non-nil decode target: an empty body is
not decoded, the target is left at its zero value and no error is returned;
a non-empty body is JSON-unmarshaled into the target, and a decode failure
yields the wrapped decode error. -/
theorem doRequest_success_decoding {α : Type} (s : Int) (b : HttpBody)
    (dec : JsonVal → Option α) (h₁ : 200 ≤ s) (h₂ : s < 300) :
    (b.raw.length = 0 → doRequest s b (some dec) = .ok none) ∧
    (0 < b.raw.length →
      doRequest s b (some dec) =
        (match b.json.bind dec with
         | some a => .ok (some a)
         | none => .decodeErr)) := by
  constructor
  · intro hz
    unfold doRequest
    rw [if_neg (by omega)]
    dsimp only
    rw [if_neg (by omega)]
  · intro hl
    unfold doRequest
    rw [if_neg (by omega)]
    dsimp only
    rw [if_pos hl]

/-- C3, witness: a 200 response with an empty body leaves the target
untouched and returns no error. -/
theorem doRequest_success_decoding_witness :
    ((200 : Int) ≤ 200) ∧ ((200 : Int) < 300) ∧
    (({ raw := (""), json := none } : HttpBody).raw.length = 0) ∧
    doRequest 200 { raw := (""), json := none } (some (fun j => some j))
      = DoResult.ok (none : Option JsonVal) := by
  refine ⟨by decide, by decide, by decide, ?_⟩
  exact (doRequest_success_decoding 200 { raw := (""), json := none }
    (fun j => some j) (by decide) (by decide)).1 (by decide)

/-- C4. Every request built by `NewRequest` carries `X-API-Key` equal to the
client's stored API key, `Accept` equal to `application/json`, `User-Agent`
equal to the client's `UserAgent` field, and `Content-Type` equal to
`application/json` exactly when a non-nil body is supplied. -/
theorem newRequest_headers (c : ClientState) (method urlStr : String)
    (body : Option JsonVal) (req : RequestModel)
    (h : (newRequest c method urlStr body).2 = some req) :
    getHeader req.headers ("X-API-Key") = some c.apiKey ∧
    getHeader req.headers ("Accept") = some ("application/json") ∧
    getHeader req.headers ("User-Agent") = some c.userAgent ∧
    (getHeader req.headers ("Content-Type") = some ("application/json") ↔ body ≠ none) := by
  simp only [newRequest] at h
  split at h
  · simp only [Option.some.injEq] at h
    subst h
    cases body <;> simp [requestHeaders, setHeader, getHeader]
  · simp at h

/-- A sample client state used for concrete evaluations: the default base
URL `https://one.digicert.com` has an empty path. -/
def sampleClient : ClientState :=
  { baseURL := { host := ("one.digicert.com"), path := ("") }
    userAgent := ("go-digicert/1.0")
    apiKey := ("test-key") }

/-- The request `NewRequest` builds for `sampleClient`, method GET, path
`test` and nil body. -/
def sampleRequest : RequestModel :=
  { method := ("GET")
    host := ("one.digicert.com")
    path := ("/mpki/api/v1/test")
    headers := [(("Accept"), ("application/json")),
                (("User-Agent"), ("go-digicert/1.0")),
                (("X-API-Key"), ("test-key"))]
    body := none }

/-- C4, witness at `sampleClient`. -/
theorem newRequest_headers_witness :
    ((newRequest sampleClient ("GET") ("test") none).2 = some sampleRequest) ∧
    (getHeader sampleRequest.headers ("X-API-Key") = some sampleClient.apiKey ∧
     getHeader sampleRequest.headers ("Accept") = some ("application/json") ∧
     getHeader sampleRequest.headers ("User-Agent") = some sampleClient.userAgent ∧
     (getHeader sampleRequest.headers ("Content-Type") = some ("application/json") ↔
       (none : Option JsonVal) ≠ none)) := by
  refine ⟨by rfl, ?_⟩
  exact newRequest_headers sampleClient ("GET") ("test") none sampleRequest (by rfl)

/-- C5, counterexample. The claim says no call to `NewRequest` changes the
client's `BaseURL`, `UserAgent` or API key. But `NewRequest` mutates
`c.BaseURL.Path` when it lacks a trailing slash: for the default base URL
(empty path) the path becomes `/` after the first call. -/
theorem newRequest_mutates_base_path_counterexample :
    (sampleClient.baseURL.path = ("")) ∧
    ((newRequest sampleClient ("GET") ("test") none).1.baseURL.path = ("/")) ∧
    ((newRequest sampleClient ("GET") ("test") none).1 ≠ sampleClient) := by
  refine ⟨by decide, by decide, by decide⟩

/-- C5, amended. `NewRequest` never changes the client's `UserAgent`, API
key or base-URL host; the base-URL path is changed only by appending a
trailing slash when it lacks one, and a client whose base path already ends
in a slash is left completely unchanged (so the mutation happens at most
once and is idempotent). -/
theorem newRequest_state_change (c : ClientState) (method urlStr : String)
    (body : Option JsonVal) :
    ((newRequest c method urlStr body).1.userAgent = c.userAgent) ∧
    ((newRequest c method urlStr body).1.apiKey = c.apiKey) ∧
    ((newRequest c method urlStr body).1.baseURL.host = c.baseURL.host) ∧
    ((newRequest c method urlStr body).1.baseURL.path
      = ensureTrailingSlash c.baseURL.path) ∧
    (hasSuffixSlash c.baseURL.path = true →
      (newRequest c method urlStr body).1 = c) := by
  refine ⟨?_, ?_, ?_, ?_, ?_⟩ <;>
    simp only [newRequest] <;>
    [skip; skip; skip; skip; intro hs] <;>
    split <;>
    simp [ensureTrailingSlash, *]

/-- A sample client whose base path already ends in a slash. -/
def sampleClientSlash : ClientState :=
  { baseURL := { host := ("one.digicert.com"), path := ("/") }
    userAgent := ("go-digicert/1.0")
    apiKey := ("test-key") }

/-- C5, witness: a client whose base path ends in `/` is unchanged. -/
theorem newRequest_state_change_witness :
    (hasSuffixSlash sampleClientSlash.baseURL.path = true) ∧
    ((newRequest sampleClientSlash ("GET") ("test") none).1 = sampleClientSlash) := by
  refine ⟨by decide, ?_⟩
  exact (newRequest_state_change sampleClientSlash ("GET") ("test") none).2.2.2.2 (by decide)

/-- C6. A service method hands the transport at most one request per
invocation — exactly one when request construction succeeds — and the set
of requests issued does not depend on the transport's answers (so a failed
request is never retried). Shown for `Certificates.Issue` and
`Certificates.Revoke`, whose bodies follow the shared
build-request-then-`Do`-once shape of every service method. -/
theorem service_single_request {α : Type} (c : ClientState)
    (t t' : RequestModel → HttpResp) (dec : JsonVal → Option α)
    (req : JsonVal) (serial : String) (body : JsonVal) :
    ((issueTrace c t dec req).1.length ≤ 1) ∧
    ((newRequest c ("POST") ("certificate") (some req)).2.isSome = true →
      (issueTrace c t dec req).1.length = 1) ∧
    ((issueTrace c t dec req).1 = (issueTrace c t' dec req).1) ∧
    ((revokeTrace c t serial body).1.length ≤ 1) ∧
    ((revokeRequest c serial body).2.isSome = true →
      (revokeTrace c t serial body).1.length = 1) ∧
    ((revokeTrace c t serial body).1 = (revokeTrace c t' serial body).1) := by
  unfold issueTrace revokeTrace
  rcases h₁ : (newRequest c ("POST") ("certificate") (some req)).2 with - | r₁ <;>
    rcases h₂ : (revokeRequest c serial body).2 with - | r₂ <;>
      simp [h₁, h₂]

/-- C6, witness at concrete inputs where construction succeeds. -/
theorem service_single_request_witness :
    ((newRequest sampleClient ("POST") ("certificate") (some JsonVal.null)).2.isSome = true) ∧
    ((revokeRequest sampleClient ("abc123") JsonVal.null).2.isSome = true) ∧
    ((issueTrace sampleClient (fun _ => { statusCode := 200, body := { raw := (""), json := none } })
        (fun _ => some ()) JsonVal.null).1.length = 1) ∧
    ((revokeTrace sampleClient (fun _ => { statusCode := 200, body := { raw := (""), json := none } })
        ("abc123") JsonVal.null).1.length = 1) := by
  refine ⟨by decide, by decide, ?_, ?_⟩
  · exact (service_single_request sampleClient
      (fun _ => { statusCode := 200, body := { raw := (""), json := none } })
      (fun _ => { statusCode := 200, body := { raw := (""), json := none } })
      (fun _ => some ()) JsonVal.null ("abc123") JsonVal.null).2.1 (by decide)
  · exact (service_single_request sampleClient
      (fun _ => { statusCode := 200, body := { raw := (""), json := none } })
      (fun _ => { statusCode := 200, body := { raw := (""), json := none } })
      (fun _ => some ()) JsonVal.null ("abc123") JsonVal.null).2.2.2.2.1 (by decide)

/-- Helper: `strings.TrimPrefix(s, "/")` leaves a string that does not
start with a slash unchanged. -/
theorem trimPrefixSlash_no_slash (s : String) (h : startsWithSlash s = false) :
    trimPrefixSlash s = s := by
  unfold trimPrefixSlash
  unfold startsWithSlash at h
  split
  · rename_i rest heq
    rw [heq] at h
    simp at h
  · rfl

/-- Helper: `strings.TrimPrefix("/" + p, "/") = p`. -/
theorem trimPrefixSlash_slash_append (p : String) :
    trimPrefixSlash (("/") ++ p) = p := by
  rcases p with ⟨l⟩
  rfl

/-- C7, counterexample. The claim quantifies over every serial number, but a
serial number containing an invalid percent escape makes `url.Parse` fail
inside `NewRequest`, so `Revoke` and `Unrevoke` return early with an error
and no PUT or DELETE request is ever built. -/
theorem revoke_invalid_serial_counterexample :
    ((revokeRequest sampleClient ("%zz") JsonVal.null).2.isSome = false) ∧
    ((unrevokeRequest sampleClient ("%zz")).2.isSome = false) ∧
    ((revokeTrace sampleClient
        (fun _ => { statusCode := 200, body := { raw := (""), json := none } })
        ("%zz") JsonVal.null).1 = []) := by
  refine ⟨by decide, by decide, by rfl⟩

/-- C7, amended. Whenever request construction succeeds, `Revoke` issues an
HTTP PUT and `Unrevoke` an HTTP DELETE, both to the relative path
`certificate/<serial>/revoke` resolved against the base URL, with the
revoke request as JSON body for PUT and a nil body for DELETE — each call
determining exactly this one method, path and body. -/
theorem revoke_unrevoke_requests (c : ClientState) (serial : String)
    (body : JsonVal) (req₁ req₂ : RequestModel) :
    ((revokeRequest c serial body).2 = some req₁ →
      req₁.method = ("PUT") ∧
      req₁.path = ensureTrailingSlash c.baseURL.path ++
        (("mpki/api/v1/certificate/") ++ serial ++ ("/revoke")) ∧
      req₁.body = some body ∧
      req₁.host = c.baseURL.host) ∧
    ((unrevokeRequest c serial).2 = some req₂ →
      req₂.method = ("DELETE") ∧
      req₂.path = ensureTrailingSlash c.baseURL.path ++
        (("mpki/api/v1/certificate/") ++ serial ++ ("/revoke")) ∧
      req₂.body = none ∧
      req₂.host = c.baseURL.host) := by
  rcases serial with ⟨l⟩
  constructor
  · intro h
    simp only [revokeRequest, newRequest] at h
    split at h
    · simp only [Option.some.injEq] at h
      subst h
      exact ⟨rfl, rfl, rfl, rfl⟩
    · simp at h
  · intro h
    simp only [unrevokeRequest, newRequest] at h
    split at h
    · simp only [Option.some.injEq] at h
      subst h
      exact ⟨rfl, rfl, rfl, rfl⟩
    · simp at h

/-- C7, witness at a concrete serial number. -/
theorem revoke_unrevoke_requests_witness :
    ((revokeRequest sampleClient ("abc123") JsonVal.null).2 = some
      { method := ("PUT")
        host := ("one.digicert.com")
        path := ("/mpki/api/v1/certificate/abc123/revoke")
        headers := [(("Content-Type"), ("application/json")),
                    (("Accept"), ("application/json")),
                    (("User-Agent"), ("go-digicert/1.0")),
                    (("X-API-Key"), ("test-key"))]
        body := some JsonVal.null }) ∧
    (({ method := ("PUT")
        host := ("one.digicert.com")
        path := ("/mpki/api/v1/certificate/abc123/revoke")
        headers := [(("Content-Type"), ("application/json")),
                    (("Accept"), ("application/json")),
                    (("User-Agent"), ("go-digicert/1.0")),
                    (("X-API-Key"), ("test-key"))]
        body := some JsonVal.null } : RequestModel).method = ("PUT")) := by
  constructor
  · rfl
  · exact ((revoke_unrevoke_requests sampleClient ("abc123") JsonVal.null
      { method := ("PUT")
        host := ("one.digicert.com")
        path := ("/mpki/api/v1/certificate/abc123/revoke")
        headers := [(("Content-Type"), ("application/json")),
                    (("Accept"), ("application/json")),
                    (("User-Agent"), ("go-digicert/1.0")),
                    (("X-API-Key"), ("test-key"))]
        body := some JsonVal.null }
      { method := ("DELETE")
        host := ("one.digicert.com")
        path := ("/mpki/api/v1/certificate/abc123/revoke")
        headers := [(("Accept"), ("application/json")),
                    (("User-Agent"), ("go-digicert/1.0")),
                    (("X-API-Key"), ("test-key"))]
        body := none }).1 (by rfl)).1

/-- C8, counterexample. The claim says `NewRequest` builds the same URL for
`p` and `"/" + p` for every path `p`. `strings.TrimPrefix` strips only one
leading slash, so for `p = "/x"` the two calls resolve to different URLs:
`/mpki/api/v1/x` versus `/mpki/api/v1//x`. -/
theorem newRequest_leading_slash_counterexample :
    ((("/") ++ ("/x")) = ("//x")) ∧
    ((newRequest sampleClient ("GET") ("/x") none).2.map (fun r => r.path)
      = some (("/mpki/api/v1/x"))) ∧
    ((newRequest sampleClient ("GET") ("//x") none).2.map (fun r => r.path)
      = some (("/mpki/api/v1//x"))) ∧
    ((("/mpki/api/v1/x") : String) ≠ ("/mpki/api/v1//x")) := by
  refine ⟨by decide, by decide, by decide, by decide⟩

/-- C8, amended. For every path string `p` that does not itself start with
a slash, `NewRequest` is indistinguishable on `p` and `"/" + p`: the whole
result (new client state and built request) is equal. -/
theorem newRequest_slash_insensitive (c : ClientState) (method p : String)
    (body : Option JsonVal) (h : startsWithSlash p = false) :
    newRequest c method (("/") ++ p) body = newRequest c method p body := by
  simp only [newRequest, relPath, trimPrefixSlash_slash_append,
    trimPrefixSlash_no_slash p h]

/-- C8, witness at `p = "test"`. -/
theorem newRequest_slash_insensitive_witness :
    (startsWithSlash ("test") = false) ∧
    (newRequest sampleClient ("GET") (("/") ++ ("test")) none
      = newRequest sampleClient ("GET") ("test") none) := by
  refine ⟨by decide, ?_⟩
  exact newRequest_slash_insensitive sampleClient ("GET") ("test") none (by decide)

/-- Helper: key presence distributes over appended query fragments. -/
theorem hasKey_append (a b : List (String × String)) (k : String) :
    hasKey (a ++ b) k = (hasKey a k || hasKey b k) := by
  simp [hasKey]

/-- Helper: key presence in a conditionally added single parameter. -/
theorem hasKey_single_ite (c : Prop) [Decidable c] (k v k' : String) :
    hasKey (if c then [(k, v)] else []) k' = (decide c && (k == k')) := by
  split <;> simp_all [hasKey]

/-- Helper: key presence in a conditionally added parameter pair. -/
theorem hasKey_pair_ite (c : Prop) [Decidable c] (k₁ v₁ k₂ v₂ k' : String) :
    hasKey (if c then [(k₁, v₁), (k₂, v₂)] else []) k'
      = (decide c && ((k₁ == k') || (k₂ == k'))) := by
  split <;> simp_all [hasKey]

/-- Helper: key presence in the per-tag parameters. -/
theorem hasKey_tag_map (ts : List String) (k k' : String) :
    hasKey (ts.map (fun t => (k, t))) k' = (!ts.isEmpty && (k == k')) := by
  cases ts <;> simp [hasKey]

/-- Helper: key presence in the optional boolean parameter. -/
theorem hasKey_opt_match (oa : Option Bool) (k k' : String) :
    hasKey ((match oa with
             | some b => [(k, fmtBool b)]
             | none => []) : List (String × String)) k'
      = (oa.isSome && (k == k')) := by
  cases oa <;> simp [hasKey]

/-- Helper: field-presence characterisation of `CertificatesService.Search`
query assembly. -/
theorem certificateSearchQuery_presence (o : CertificateSearchOptions) :
    (hasKey (certificateSearchQuery o) ("common_name") = true ↔ o.CommonName ≠ ("")) ∧
    (hasKey (certificateSearchQuery o) ("serial_number") = true ↔ o.SerialNumber ≠ ("")) ∧
    (hasKey (certificateSearchQuery o) ("status") = true ↔ o.Status ≠ ("")) ∧
    (hasKey (certificateSearchQuery o) ("profile_id") = true ↔ o.ProfileID ≠ ("")) ∧
    (hasKey (certificateSearchQuery o) ("tags") = true ↔ o.Tags ≠ []) ∧
    (hasKey (certificateSearchQuery o) ("offset") = true ↔ 0 < o.Offset) ∧
    (hasKey (certificateSearchQuery o) ("limit") = true ↔ 0 < o.Limit) ∧
    (hasKey (certificateSearchQuery o) ("sort_by") = false) ∧
    (hasKey (certificateSearchQuery o) ("sort_order") = false) := by
  simp only [certificateSearchQuery, hasKey_append, hasKey_single_ite, hasKey_tag_map]
  simp [List.isEmpty_iff]

/-- Helper: field-presence characterisation of `BusinessUnitsService.List`
query assembly. -/
theorem businessUnitListQuery_presence (o : BusinessUnitListOptions) :
    (hasKey (businessUnitListQuery o) ("name") = true ↔ o.Name ≠ ("")) ∧
    (hasKey (businessUnitListQuery o) ("parent_id") = true ↔ o.ParentID ≠ ("")) ∧
    (hasKey (businessUnitListQuery o) ("is_active") = true ↔ o.IsActive.isSome = true) ∧
    (hasKey (businessUnitListQuery o) ("offset") = true ↔ 0 < o.Offset ∧ 0 < o.Limit) ∧
    (hasKey (businessUnitListQuery o) ("limit") = true ↔ 0 < o.Offset ∧ 0 < o.Limit) ∧
    (hasKey (businessUnitListQuery o) ("sort_by") = true ↔ o.SortBy ≠ ("")) ∧
    (hasKey (businessUnitListQuery o) ("sort_order") = true ↔ o.SortOrder ≠ ("")) := by
  simp only [businessUnitListQuery, hasKey_append, hasKey_single_ite, hasKey_pair_ite,
    hasKey_opt_match]
  simp

/-- Helper: field-presence characterisation of `CertificateOwnersService.List`
query assembly. -/
theorem certificateOwnerListQuery_presence (o : CertificateOwnerListOptions) :
    (hasKey (certificateOwnerListQuery o) ("email") = true ↔ o.Email ≠ ("")) ∧
    (hasKey (certificateOwnerListQuery o) ("first_name") = true ↔ o.FirstName ≠ ("")) ∧
    (hasKey (certificateOwnerListQuery o) ("last_name") = true ↔ o.LastName ≠ ("")) ∧
    (hasKey (certificateOwnerListQuery o) ("is_active") = true ↔ o.IsActive.isSome = true) ∧
    (hasKey (certificateOwnerListQuery o) ("page") = true ↔ 0 < o.Page) ∧
    (hasKey (certificateOwnerListQuery o) ("page_size") = true ↔ 0 < o.PageSize) ∧
    (hasKey (certificateOwnerListQuery o) ("sort_by") = true ↔ o.SortBy ≠ ("")) ∧
    (hasKey (certificateOwnerListQuery o) ("sort_order") = true ↔ o.SortOrder ≠ ("")) := by
  simp only [certificateOwnerListQuery, hasKey_append, hasKey_single_ite, hasKey_opt_match]
  simp

/-- Helper: field-presence characterisation of `EnrollmentsService.ListDetails`
query assembly. -/
theorem enrollmentDetailsQuery_presence (o : EnrollmentDetailsOptions) :
    (hasKey (enrollmentDetailsQuery o) ("status") = true ↔ o.Status ≠ ("")) ∧
    (hasKey (enrollmentDetailsQuery o) ("profile_id") = true ↔ o.ProfileID ≠ ("")) ∧
    (hasKey (enrollmentDetailsQuery o) ("page") = true ↔ 0 < o.Page) ∧
    (hasKey (enrollmentDetailsQuery o) ("page_size") = true ↔ 0 < o.PageSize) ∧
    (hasKey (enrollmentDetailsQuery o) ("sort_by") = true ↔ o.SortBy ≠ ("")) ∧
    (hasKey (enrollmentDetailsQuery o) ("sort_order") = true ↔ o.SortOrder ≠ ("")) := by
  simp only [enrollmentDetailsQuery, hasKey_append, hasKey_single_ite]
  simp

/-- Helper: field-presence characterisation of `ProfilesService.List`
query assembly. -/
theorem profileListQuery_presence (o : ProfileListOptions) :
    (hasKey (profileListQuery o) ("name") = true ↔ o.Name ≠ ("")) ∧
    (hasKey (profileListQuery o) ("type") = true ↔ o.«Type» ≠ ("")) ∧
    (hasKey (profileListQuery o) ("status") = true ↔ o.Status ≠ ("")) ∧
    (hasKey (profileListQuery o) ("enrollment_method") = true ↔ o.EnrollmentMethod ≠ ("")) ∧
    (hasKey (profileListQuery o) ("page") = true ↔ 0 < o.Page) ∧
    (hasKey (profileListQuery o) ("page_size") = true ↔ 0 < o.PageSize) ∧
    (hasKey (profileListQuery o) ("sort_by") = true ↔ o.SortBy ≠ ("")) ∧
    (hasKey (profileListQuery o) ("sort_order") = true ↔ o.SortOrder ≠ ("")) := by
  simp only [profileListQuery, hasKey_append, hasKey_single_ite]
  simp

/-- C2, counterexample. The claim says each field is emitted exactly when it
is non-zero/non-empty and that a field's presence depends only on its own
value. In `BusinessUnitsService.List` a positive `Offset` is dropped when
`Limit` is zero, and in `CertificatesService.Search` a non-empty `SortBy`
is never emitted at all. -/
theorem list_query_independence_counterexample :
    ((({ Offset := 5 } : BusinessUnitListOptions)).Offset ≠ 0) ∧
    (hasKey (businessUnitListQuery ({ Offset := 5 } : BusinessUnitListOptions))
      ("offset") = false) ∧
    ((({ SortBy := ("name") } : CertificateSearchOptions)).SortBy ≠ ("")) ∧
    (hasKey (certificateSearchQuery ({ SortBy := ("name") } : CertificateSearchOptions))
      ("sort_by") = false) := by
  refine ⟨by decide, by decide, by decide, by decide⟩

/-- C2, amended. For the five list/search methods, every filter or
pagination field the method's query-assembly code reads is copied into the
query exactly when it is non-zero/non-empty and independently of the other
fields, with two exceptions: `BusinessUnitsService.List` adds `offset` and
`limit` only when both are positive (so each one's presence also depends on
the other), and `CertificatesService.Search` never copies its `SortBy` and
`SortOrder` fields into the query. -/
theorem list_query_field_presence (o₁ : CertificateSearchOptions)
    (o₂ : BusinessUnitListOptions) (o₃ : CertificateOwnerListOptions)
    (o₄ : EnrollmentDetailsOptions) (o₅ : ProfileListOptions) :
    ((hasKey (certificateSearchQuery o₁) ("common_name") = true ↔ o₁.CommonName ≠ ("")) ∧
     (hasKey (certificateSearchQuery o₁) ("serial_number") = true ↔ o₁.SerialNumber ≠ ("")) ∧
     (hasKey (certificateSearchQuery o₁) ("status") = true ↔ o₁.Status ≠ ("")) ∧
     (hasKey (certificateSearchQuery o₁) ("profile_id") = true ↔ o₁.ProfileID ≠ ("")) ∧
     (hasKey (certificateSearchQuery o₁) ("tags") = true ↔ o₁.Tags ≠ []) ∧
     (hasKey (certificateSearchQuery o₁) ("offset") = true ↔ 0 < o₁.Offset) ∧
     (hasKey (certificateSearchQuery o₁) ("limit") = true ↔ 0 < o₁.Limit) ∧
     (hasKey (certificateSearchQuery o₁) ("sort_by") = false) ∧
     (hasKey (certificateSearchQuery o₁) ("sort_order") = false)) ∧
    ((hasKey (businessUnitListQuery o₂) ("name") = true ↔ o₂.Name ≠ ("")) ∧
     (hasKey (businessUnitListQuery o₂) ("parent_id") = true ↔ o₂.ParentID ≠ ("")) ∧
     (hasKey (businessUnitListQuery o₂) ("is_active") = true ↔ o₂.IsActive.isSome = true) ∧
     (hasKey (businessUnitListQuery o₂) ("offset") = true ↔ 0 < o₂.Offset ∧ 0 < o₂.Limit) ∧
     (hasKey (businessUnitListQuery o₂) ("limit") = true ↔ 0 < o₂.Offset ∧ 0 < o₂.Limit) ∧
     (hasKey (businessUnitListQuery o₂) ("sort_by") = true ↔ o₂.SortBy ≠ ("")) ∧
     (hasKey (businessUnitListQuery o₂) ("sort_order") = true ↔ o₂.SortOrder ≠ (""))) ∧
    ((hasKey (certificateOwnerListQuery o₃) ("email") = true ↔ o₃.Email ≠ ("")) ∧
     (hasKey (certificateOwnerListQuery o₃) ("first_name") = true ↔ o₃.FirstName ≠ ("")) ∧
     (hasKey (certificateOwnerListQuery o₃) ("last_name") = true ↔ o₃.LastName ≠ ("")) ∧
     (hasKey (certificateOwnerListQuery o₃) ("is_active") = true ↔ o₃.IsActive.isSome = true) ∧
     (hasKey (certificateOwnerListQuery o₃) ("page") = true ↔ 0 < o₃.Page) ∧
     (hasKey (certificateOwnerListQuery o₃) ("page_size") = true ↔ 0 < o₃.PageSize) ∧
     (hasKey (certificateOwnerListQuery o₃) ("sort_by") = true ↔ o₃.SortBy ≠ ("")) ∧
     (hasKey (certificateOwnerListQuery o₃) ("sort_order") = true ↔ o₃.SortOrder ≠ (""))) ∧
    ((hasKey (enrollmentDetailsQuery o₄) ("status") = true ↔ o₄.Status ≠ ("")) ∧
     (hasKey (enrollmentDetailsQuery o₄) ("profile_id") = true ↔ o₄.ProfileID ≠ ("")) ∧
     (hasKey (enrollmentDetailsQuery o₄) ("page") = true ↔ 0 < o₄.Page) ∧
     (hasKey (enrollmentDetailsQuery o₄) ("page_size") = true ↔ 0 < o₄.PageSize) ∧
     (hasKey (enrollmentDetailsQuery o₄) ("sort_by") = true ↔ o₄.SortBy ≠ ("")) ∧
     (hasKey (enrollmentDetailsQuery o₄) ("sort_order") = true ↔ o₄.SortOrder ≠ (""))) ∧
    ((hasKey (profileListQuery o₅) ("name") = true ↔ o₅.Name ≠ ("")) ∧
     (hasKey (profileListQuery o₅) ("type") = true ↔ o₅.«Type» ≠ ("")) ∧
     (hasKey (profileListQuery o₅) ("status") = true ↔ o₅.Status ≠ ("")) ∧
     (hasKey (profileListQuery o₅) ("enrollment_method") = true ↔ o₅.EnrollmentMethod ≠ ("")) ∧
     (hasKey (profileListQuery o₅) ("page") = true ↔ 0 < o₅.Page) ∧
     (hasKey (profileListQuery o₅) ("page_size") = true ↔ 0 < o₅.PageSize) ∧
     (hasKey (profileListQuery o₅) ("sort_by") = true ↔ o₅.SortBy ≠ ("")) ∧
     (hasKey (profileListQuery o₅) ("sort_order") = true ↔ o₅.SortOrder ≠ (""))) :=
  ⟨certificateSearchQuery_presence o₁, businessUnitListQuery_presence o₂,
   certificateOwnerListQuery_presence o₃, enrollmentDetailsQuery_presence o₄,
   profileListQuery_presence o₅⟩

/-- C9. `IsNotFound`, `IsUnauthorized` and `IsForbidden` return true exactly
when the error is a `*APIError` or `*HTTPError` whose status code is 404,
401 or 403 respectively, and false on every error of any other dynamic
type. -/
theorem error_helpers_status (err : GoErrorValue) :
    (IsNotFound err = true ↔ errStatus err = some 404) ∧
    (IsUnauthorized err = true ↔ errStatus err = some 401) ∧
    (IsForbidden err = true ↔ errStatus err = some 403) := by
  cases err <;> simp [IsNotFound, IsUnauthorized, IsForbidden, errStatus]

end Digicert
